import Mathlib

/-!
Shallow embedding of `src/app.ts` (the single source file of the repository).

The source exports one async function:

  export const handler = async (event: any) => {
      try {
          console.log(event);
          return { statusCode: 200, body: JSON.stringify({ status: "success",
                   message: "handler triggered" }) }
      } catch (error) {
          const errorMessage = error instanceof Error ? error.message
                                                      : "Something went wrong";
          console.error(errorMessage);
          return { statusCode: 500, body: JSON.stringify({ status: "failed",
                   message: "Something went wrong" }) };
      }
  }

Modelling decisions:
* `Response` mirrors the returned record: a `statusCode` number and a `body`
  string.  `JSON.stringify` applied to an object literal whose fields are all
  string literals is embedded as `jsonStringifyStrObj`, which produces the
  exact text `JSON.stringify` produces for such an object (insertion order,
  no whitespace).
* The event has type `any` and no field of it is ever read, so the embedding
  is polymorphic in the event type.
* Diagnostic output: each `console.log` call is recorded as `LogEntry.info`
  of the logged value and each `console.error` call as `LogEntry.error` of
  the logged string; the handler returns the list of entries written, in
  order.
* Thrown JavaScript values are embedded as `Thrown`: either an `Error`
  instance carrying its `.message` string, or any other value (which the
  `instanceof Error` test rejects).
* Failure injection: nothing in the try body can be made to throw by the
  event value alone, so, to state the spec's failure-path properties
  ("given any failure is forced during processing"), the embedding takes a
  `TryFault` parameter selecting which step of the try body, if any, the
  host is forced to throw at: `noFault` (the actual semantics: the body
  completes), `atLog e` (the `console.log(event)` call throws `e`, so the
  informational entry is never written), or `afterLog e` (the construction /
  serialization of the success response throws `e`, after the informational
  entry was written).  A second parameter `cf : Option Thrown` injects, when
  `some`, a failure raised inside the catch block itself (the
  `console.error` call or the construction of the failure response); such a
  failure is not protected by the `try` and propagates to the caller, which
  the result type `Except Thrown _` makes explicit.
-/

namespace App

/-- The record returned by the handler: a numeric `statusCode` and a JSON
`body` string, as in `src/app.ts`. -/
structure Response where
  statusCode : Nat
  body : String
deriving DecidableEq, Repr

/-- A thrown JavaScript value: either an `Error` instance carrying its
`.message`, or any other thrown value (a string here stands for its
contents), which `instanceof Error` rejects. -/
inductive Thrown where
  | errorObj (message : String) : Thrown
  | nonError (value : String) : Thrown
deriving DecidableEq, Repr

/-- One write to the diagnostic output: `info` records a `console.log` call
with the logged value, `error` records a `console.error` call with the
logged string. -/
inductive LogEntry (α : Type) where
  | info (value : α) : LogEntry α
  | error (message : String) : LogEntry α
deriving DecidableEq, Repr

/-- Which step of the try body of `handler`, if any, the host is forced to
throw at: none (the actual semantics), the `console.log(event)` call (before
its entry is written), or the construction of the success response (after
the event was logged). -/
inductive TryFault where
  | noFault : TryFault
  | atLog (e : Thrown) : TryFault
  | afterLog (e : Thrown) : TryFault
deriving DecidableEq, Repr

/-- The serialization `JSON.stringify` performs on an object literal whose
fields are all string literals: fields in insertion order, no whitespace. -/
def jsonStringifyStrObj (fields : List (String × String)) : String :=
  "\x7b" ++ String.intercalate ","
    (fields.map (fun kv => "\"" ++ kv.1 ++ "\":\"" ++ kv.2 ++ "\"")) ++ "\x7d"

/-- Body of the success response, `JSON.stringify({ status: "success",
message: "handler triggered" })` in `src/app.ts`. -/
def successBody : String :=
  jsonStringifyStrObj [("status", "success"), ("message", "handler triggered")]

/-- Body of the failure response, `JSON.stringify({ status: "failed",
message: "Something went wrong" })` in `src/app.ts`. -/
def failureBody : String :=
  jsonStringifyStrObj [("status", "failed"), ("message", "Something went wrong")]

/-- The success response returned from the try body of `handler`. -/
def successResponse : Response :=
  { statusCode := 200, body := successBody }

/-- The failure response returned from the catch block of `handler`. -/
def failureResponse : Response :=
  { statusCode := 500, body := failureBody }

/-- The `const errorMessage = error instanceof Error ? error.message :
"Something went wrong"` computation of the catch block. -/
def errorMessage : Thrown → String
  | Thrown.errorObj m => m
  | Thrown.nonError _ => "Something went wrong"

/-- The catch block of `handler`, entered with the thrown value `error` and
the diagnostic entries the try body wrote before throwing.  It computes
`errorMessage`, calls `console.error` on it and returns the 500 response;
when `cf` injects a failure inside the block (at the `console.error` call or
the construction of the failure response) that failure is not protected by
the `try` and propagates. -/
def handlerCatch {α : Type} (error : Thrown) (logsSoFar : List (LogEntry α))
    (cf : Option Thrown) : Except Thrown (Response × List (LogEntry α)) :=
  match cf with
  | some e2 => Except.error e2
  | none =>
      Except.ok (failureResponse, logsSoFar ++ [LogEntry.error (errorMessage error)])

/-- The handler of `src/app.ts`.  `tf` selects which step of the try body, if
any, the host throws at; `cf`, when `some`, injects a failure inside the
catch block itself.  The result carries the response together with the
diagnostic entries written, or the thrown value when a failure escapes. -/
def handler {α : Type} (event : α) (tf : TryFault) (cf : Option Thrown) :
    Except Thrown (Response × List (LogEntry α)) :=
  match tf with
  | TryFault.noFault =>
      Except.ok (successResponse, [LogEntry.info event])
  | TryFault.atLog e => handlerCatch e [] cf
  | TryFault.afterLog e => handlerCatch e [LogEntry.info event] cf

/-- Claim C1: for every input event value (of any type, since no field of the
event is ever read) and any failure the host forces inside the try body, the
handler returns a `Response` value and never propagates a failure to its
caller — here with the actual semantics of the catch block, whose
`console.error` call on a string and fixed-literal serialization do not
throw (`cf = none`). -/
theorem handler_never_throws {α : Type} (event : α) (tf : TryFault) :
    (handler event tf Option.none).isOk = true := by
  cases tf <;> rfl

/-- Claim C2: whenever no failure occurs, the handler returns exactly the
record with `statusCode` 200 and body the JSON encoding of
`\x7b status: "success", message: "handler triggered" \x7d`. -/
theorem handler_success_response {α : Type} (event : α) :
    handler event TryFault.noFault Option.none =
      Except.ok ({ statusCode := 200, body := "\x7b\"status\":\"success\",\"message\":\"handler triggered\"\x7d" },
        [LogEntry.info event]) := rfl

/-- Claim C3: for every failure forced during processing — whatever its
message or whether it is an `Error` at all, and wherever in the try body it
arises — the handler returns exactly the record with `statusCode` 500 and
body the JSON encoding of `\x7b status: "failed", message: "Something went
wrong" \x7d`. -/
theorem handler_failure_response {α : Type} (event : α) (e : Thrown) :
    handler event (TryFault.atLog e) Option.none =
      Except.ok ({ statusCode := 500, body := "\x7b\"status\":\"failed\",\"message\":\"Something went wrong\"\x7d" },
        [LogEntry.error (errorMessage e)]) ∧
    handler event (TryFault.afterLog e) Option.none =
      Except.ok ({ statusCode := 500, body := "\x7b\"status\":\"failed\",\"message\":\"Something went wrong\"\x7d" },
        [LogEntry.info event, LogEntry.error (errorMessage e)]) :=
  ⟨rfl, rfl⟩

/-- Claim C4 (two-run form, as the claim itself states it): for any two
events and any two forced failures, the responses returned by the two runs
are identical, so no detail of the underlying error flows into the
caller-visible output. -/
theorem handler_failure_noninterference {α β : Type} (event₁ : α) (event₂ : β)
    (tf₁ tf₂ : TryFault) (h₁ : tf₁ ≠ TryFault.noFault) (h₂ : tf₂ ≠ TryFault.noFault) :
    (handler event₁ tf₁ Option.none).map Prod.fst
      = (handler event₂ tf₂ Option.none).map Prod.fst := by
  cases tf₁ <;> cases tf₂ <;>
    first
      | rfl
      | exact absurd rfl h₁
      | exact absurd rfl h₂

/-- Witness for C4 at concrete inputs: a unit event with an `Error` failure
at the logging step against a string event with a non-`Error` failure at the
response-construction step. -/
theorem handler_failure_noninterference_witness :
    TryFault.atLog (Thrown.errorObj "boom") ≠ TryFault.noFault ∧
    TryFault.afterLog (Thrown.nonError "x") ≠ TryFault.noFault ∧
    (handler () (TryFault.atLog (Thrown.errorObj "boom")) Option.none).map Prod.fst
      = (handler "ev" (TryFault.afterLog (Thrown.nonError "x")) Option.none).map Prod.fst :=
  ⟨by decide, by decide,
    handler_failure_noninterference () "ev"
      (TryFault.atLog (Thrown.errorObj "boom"))
      (TryFault.afterLog (Thrown.nonError "x")) (by decide) (by decide)⟩

/-- Counterexample to claim C5: the `try` of `src/app.ts` covers only the
try body, not the catch block, so a failure raised inside the catch block —
here the `console.error` call throwing after `console.log` already threw —
escapes the handler instead of being caught by an outer boundary. -/
theorem handler_catch_escape :
    handler () (TryFault.atLog (Thrown.nonError "x")) (some (Thrown.errorObj "boom"))
      = Except.error (Thrown.errorObj "boom") ∧
    (handler () (TryFault.atLog (Thrown.nonError "x"))
        (some (Thrown.errorObj "boom"))).isOk = false :=
  ⟨rfl, rfl⟩

/-- Claim C5 as amended: every failure raised inside the try body is caught
by the handler's boundary and converted to a response, but a failure raised
inside the catch block itself (during error logging or construction of the
failure response) is outside that boundary and escapes the handler. -/
theorem handler_catch_boundary {α : Type} (event : α) (tf : TryFault)
    (e2 : Thrown) (h : tf ≠ TryFault.noFault) :
    (handler event tf Option.none).isOk = true ∧
    handler event tf (some e2) = Except.error e2 := by
  cases tf with
  | noFault => exact absurd rfl h
  | atLog e => exact ⟨rfl, rfl⟩
  | afterLog e => exact ⟨rfl, rfl⟩

/-- Witness for the amended C5 at concrete inputs. -/
theorem handler_catch_boundary_witness :
    TryFault.atLog (Thrown.errorObj "a") ≠ TryFault.noFault ∧
    ((handler () (TryFault.atLog (Thrown.errorObj "a")) Option.none).isOk = true ∧
      handler () (TryFault.atLog (Thrown.errorObj "a")) (some (Thrown.nonError "b"))
        = Except.error (Thrown.nonError "b")) :=
  ⟨by decide,
    handler_catch_boundary () (TryFault.atLog (Thrown.errorObj "a"))
      (Thrown.nonError "b") (by decide)⟩

/-- Counterexample to claim C6: when the forced failure is the
`console.log(event)` call itself throwing, the informational entry is never
written, so the failure path writes exactly one diagnostic entry (the error
detail), not two. -/
theorem handler_single_log_on_log_failure :
    (handler () (TryFault.atLog (Thrown.errorObj "boom")) Option.none).map
        (fun r => r.2.length) = Except.ok 1 ∧ (1 : Nat) ≠ 2 :=
  ⟨rfl, by decide⟩

/-- Claim C6 as amended: the handler writes to diagnostic output exactly
once on the success path (an informational log of the input event); on the
failure path it writes exactly twice (the input event, then the derived
error detail) when the failure arises after the event has been logged, but
exactly once (the error detail alone) when the event-logging call itself is
the failure; it writes nothing else. -/
theorem handler_log_writes {α : Type} (event : α) (e : Thrown) :
    handler event TryFault.noFault Option.none
      = Except.ok (successResponse, [LogEntry.info event]) ∧
    handler event (TryFault.afterLog e) Option.none
      = Except.ok (failureResponse,
          [LogEntry.info event, LogEntry.error (errorMessage e)]) ∧
    handler event (TryFault.atLog e) Option.none
      = Except.ok (failureResponse, [LogEntry.error (errorMessage e)]) :=
  ⟨rfl, rfl, rfl⟩

/-- Claim C7: for every failure that is an `Error` instance with message
`m`, the text written to the error-level diagnostic channel is exactly `m`,
while the returned response is the fixed `failureResponse` constant, whose
value does not depend on `m` — so the descriptive text reaches only the
diagnostic output, never the caller-visible response. -/
theorem handler_error_text_only_logged {α : Type} (event : α) (m : String) :
    handler event (TryFault.afterLog (Thrown.errorObj m)) Option.none
      = Except.ok (failureResponse, [LogEntry.info event, LogEntry.error m]) ∧
    handler event (TryFault.atLog (Thrown.errorObj m)) Option.none
      = Except.ok (failureResponse, [LogEntry.error m]) ∧
    failureResponse
      = { statusCode := 500, body := "\x7b\"status\":\"failed\",\"message\":\"Something went wrong\"\x7d" } :=
  ⟨rfl, rfl, rfl⟩

/-- Claim C8: the handler's returned response does not depend on the input
event value — for any two events, of possibly different types, and the same
fault behaviour, the response components of the two runs are identical; the
event reaches only the diagnostic log. -/
theorem handler_response_event_independent {α β : Type} (event₁ : α) (event₂ : β)
    (tf : TryFault) (cf : Option Thrown) :
    (handler event₁ tf cf).map Prod.fst = (handler event₂ tf cf).map Prod.fst := by
  cases tf <;> cases cf <;> rfl

/-- Claim C9: with `console.log` total (`TryFault.noFault`, the actual
semantics, under which nothing in the try body throws), every invocation
returns the 200 success response with a single informational log entry,
whatever the catch block would do — the catch branch is unreachable and the
500 branch is dead code. -/
theorem handler_catch_unreachable {α : Type} (event : α) (cf : Option Thrown) :
    handler event TryFault.noFault cf
      = Except.ok (successResponse, [LogEntry.info event]) ∧
    successResponse.statusCode = 200 :=
  ⟨rfl, rfl⟩

/-- Claim C10: when the thrown value is not an `Error` instance, the message
written to the error-level diagnostic channel is the fixed string
"Something went wrong", which coincides with the user-facing message inside
the failure response body. -/
theorem handler_nonError_generic_log {α : Type} (event : α) (v : String) :
    errorMessage (Thrown.nonError v) = "Something went wrong" ∧
    handler event (TryFault.afterLog (Thrown.nonError v)) Option.none
      = Except.ok (failureResponse,
          [LogEntry.info event, LogEntry.error "Something went wrong"]) ∧
    handler event (TryFault.atLog (Thrown.nonError v)) Option.none
      = Except.ok (failureResponse, [LogEntry.error "Something went wrong"]) ∧
    failureResponse.body
      = "\x7b\"status\":\"failed\",\"message\":\"Something went wrong\"\x7d" :=
  ⟨rfl, rfl, rfl, rfl⟩

end App
